import Mathlib

/-!
Shallow embedding of the Code Mutation Engine of `daily_commits.py`
(class `DynamicCodeModifier`): file discovery (`find_code_files`),
section selection (`select_random_code_section`), prompt building
(`get_improvement_prompt`), mutation application
(`apply_code_modification`), the bounded attempt loop of
`make_dynamic_commit`, and the git commit workflow (`commit_and_push`).

Python strings are modelled as Lean `String`; the Python string
operations used by the engine (`strip`, `startswith`, `split`, `join`,
substring membership, suffix matching) are given structural definitions
over `String.data` so every definition evaluates inside the kernel.
External effects (the OpenAI call, the random draws, git subprocesses,
the file system) are explicit oracle parameters; the engine logic
itself is translated line for line from the source.
-/

/-- Python whitespace set for `str.strip()` (the ASCII whitespace
characters: space, tab, newline, carriage return, vertical tab,
form feed). -/
def pyIsSpace (c : Char) : Bool :=
  c = ' ' || c = '\t' || c = '\n' || c = '\r' || c = Char.ofNat 11 || c = Char.ofNat 12

/-- Python `s.strip()`: drop whitespace from both ends. -/
def pyStrip (s : String) : String :=
  String.mk (((s.data.dropWhile pyIsSpace).reverse.dropWhile pyIsSpace).reverse)

/-- Python `s.startswith(pre)`. -/
def pyStartsWith (s pre : String) : Bool :=
  pre.data.isPrefixOf s.data

/-- Splitter on a single separator character; `acc` holds the current
(reversed) chunk.  Mirrors Python `str.split(sep)` semantics: no chunk
collapsing, and the empty string splits to one empty chunk. -/
def splitOnCharAux (c : Char) : List Char → List Char → List (List Char)
  | [], acc => [acc.reverse]
  | x :: xs, acc =>
    if x = c then acc.reverse :: splitOnCharAux c xs []
    else splitOnCharAux c xs (x :: acc)

/-- Python `s.split(c)` for a one-character separator. -/
def pySplit (c : Char) (s : String) : List String :=
  (splitOnCharAux c s.data []).map String.mk

/-- Python `content.split('\n')`, as used on the file content. -/
def pySplitNl (s : String) : List String := pySplit '\n' s

/-- A file seen by Discovery: its full path string and its byte size
(Python `str(file_path)` and `file_path.stat().st_size`). -/
structure SrcFile where
  path : String
  size : Nat
  deriving DecidableEq

/-- The hard-coded environment exclusions of `find_code_files`
(`['venv', 'site-packages', '.git', 'node_modules']`). -/
def system_skip_markers : List String := ["venv", "site-packages", ".git", "node_modules"]

/-- Embedding of `DynamicCodeModifier.find_code_files`.  The recursive
`repo.rglob(f"*{ext}")` walk is modelled by filtering the file-system
snapshot `files` for paths whose character sequence ends with `ext`
(pathlib matches the pattern `*ext` against the file name, which is the
final path component, so the name matches exactly when the path ends
with `ext`).  The three `continue` guards are translated in order:
configured ignore patterns, hard-coded environment markers, and the
size window `file_size < 50 or file_size > 50000`. -/
def find_code_files (extensions ignore_patterns : List String) (files : List SrcFile) : List SrcFile :=
  extensions.flatMap (fun ext =>
    files.filter (fun f =>
      decide (ext.data <:+ f.path.data)
      && !(ignore_patterns.any (fun p => decide (p.data <:+: f.path.data)))
      && !(system_skip_markers.any (fun p => decide (p.data <:+: f.path.data)))
      && !(decide (f.size < 50) || decide (f.size > 50000))))

/-- Final path component, Python `Path(p).name` (split on the path
separator, last piece). -/
def pathName (p : String) : String :=
  (pySplit '/' p).getLastD ""

/-- Index of the last occurrence of a dot in a character list,
Python `name.rfind('.')` restricted to the found case. -/
def lastIndexOfDot (cs : List Char) : Option Nat :=
  match cs.reverse.findIdx? (fun c => c = '.') with
  | none => none
  | some j => some (cs.length - 1 - j)

/-- Python `Path(p).suffix`: the extension of the final component,
empty when the name has no interior dot (pathlib:
`name[i:]` when `0 < i < len(name) - 1` for `i = name.rfind('.')`,
else the empty string). -/
def pathSuffix (p : String) : String :=
  let n := pathName p
  match lastIndexOfDot n.data with
  | none => ""
  | some i => if 0 < i ∧ i < n.length - 1 then String.mk (n.data.drop i) else ""

/-- Python `s.lower()` (character-wise). -/
def pyLower (s : String) : String :=
  String.mk (s.data.map Char.toLower)

/-- Embedding of `DynamicCodeModifier.detect_language`: the
extension-to-language table with default `"unknown"`. -/
def detect_language (file_path : String) : String :=
  let ext := pyLower (pathSuffix file_path)
  if ext = ".ts" then "typescript"
  else if ext = ".tsx" then "typescript"
  else if ext = ".js" then "javascript"
  else if ext = ".jsx" then "javascript"
  else if ext = ".py" then "python"
  else if ext = ".java" then "java"
  else if ext = ".go" then "go"
  else if ext = ".rs" then "rust"
  else "unknown"

/-- The triviality filter of `select_random_code_section`: a line is
meaningful when its stripped form is non-empty, opens no comment
(`//`, `#`, `/*`, `*`), and is longer than 10 characters. -/
def meaningful_check (line : String) : Bool :=
  let stripped := pyStrip line
  !(stripped = "")
  && !(pyStartsWith stripped "//")
  && !(pyStartsWith stripped "#")
  && !(pyStartsWith stripped "/*")
  && !(pyStartsWith stripped "*")
  && decide (stripped.length > 10)

/-- The `meaningful_lines` list of `select_random_code_section`:
`(zero-based original index, raw line)` pairs surviving the filter,
built by `enumerate(lines)`. -/
def meaningful_lines (lines : List String) : List (Nat × String) :=
  lines.enum.filter (fun p => meaningful_check p.2)

/-- The dict returned by `select_random_code_section`: owning path,
the selected `(index, text)` pairs, the full original text, its line
split, and the detected language. -/
structure CodeSection where
  file_path : String
  lines : List (Nat × String)
  content : String
  all_lines : List String
  language : String
  deriving DecidableEq

/-- Embedding of `DynamicCodeModifier.select_random_code_section`.
The two `random.randint` draws are oracle parameters: the source draws
`section_size = randint(2, min(3, len(meaningful_lines)))` and
`start_idx = randint(0, len(meaningful_lines) - section_size)`; the
slice `meaningful_lines[start_idx : start_idx + section_size]` is
`(drop start_idx).take section_size`. -/
def select_random_code_section (file_path content : String) (section_size start_idx : Nat) : Option CodeSection :=
  let lines := pySplitNl content
  let meaningful := meaningful_lines lines
  if meaningful.length < 3 then none
  else some
    { file_path := file_path
      lines := (meaningful.drop start_idx).take section_size
      content := content
      all_lines := lines
      language := detect_language file_path }

/-- Python `'\n'.join(line[1] for line in code_section['lines'])`:
the selected lines' text joined in original order.  This expression
appears both as the prompt's code block and as the no-op comparison
baseline in `make_dynamic_commit`. -/
def section_text (cs : CodeSection) : String :=
  String.intercalate "\n" (cs.lines.map Prod.snd)

/-- Embedding of `DynamicCodeModifier.get_improvement_prompt`: the
four-template table keyed by modification type, with the
`improve_readability` template as `prompts.get`'s fallback. -/
def get_improvement_prompt (code_section : CodeSection) (modification_type : String) : String :=
  let language := code_section.language
  let code_text := section_text code_section
  if modification_type = "improve_performance" then
    "Improve the performance of this " ++ language ++ " code. Only return the improved code, no explanations:\n\n" ++ code_text
  else if modification_type = "add_error_handling" then
    "Add proper error handling to this " ++ language ++ " code. Only return the improved code, no explanations:\n\n" ++ code_text
  else if modification_type = "improve_readability" then
    "Make this " ++ language ++ " code more readable and clean. Only return the improved code, no explanations:\n\n" ++ code_text
  else if modification_type = "optimize_code" then
    "Optimize this " ++ language ++ " code for better efficiency. Only return the improved code, no explanations:\n\n" ++ code_text
  else
    "Make this " ++ language ++ " code more readable and clean. Only return the improved code, no explanations:\n\n" ++ code_text

/-- Embedding of `DynamicCodeModifier.generate_commit_message` (the
source also receives the chosen file path but never uses it). -/
def generate_commit_message (modification_type : String) : String :=
  if modification_type = "improve_performance" then "perf: optimize code performance"
  else if modification_type = "add_error_handling" then "fix: improve error handling"
  else if modification_type = "improve_readability" then "refactor: improve code readability"
  else if modification_type = "add_documentation" then "docs: add code comments"
  else if modification_type = "optimize_code" then "perf: optimize implementation"
  else if modification_type = "add_type_safety" then "feat: enhance type safety"
  else if modification_type = "refactor_logic" then "refactor: simplify logic"
  else "chore: improve code quality"

/-- Embedding of `DynamicCodeModifier.apply_code_modification`, the
pure line-splice part: `all_lines[:start_line] + new_lines +
all_lines[end_line + 1:]` where `start_line = selected_lines[0][0]`,
`end_line = selected_lines[-1][0]` and `new_lines =
improved_code.split('\n')`.  (The source then joins with newline and
overwrites the file; the sources' indexing of a non-empty selection is
modelled totally with `headD`/`getLastD`.) -/
def apply_code_modification (code_section : CodeSection) (improved_code : String) : List String :=
  let all_lines := code_section.all_lines
  let start_line := (code_section.lines.headD (0, "")).1
  let end_line := (code_section.lines.getLastD (0, "")).1
  let new_lines := pySplitNl improved_code
  all_lines.take start_line ++ new_lines ++ all_lines.drop (end_line + 1)

/-- Outcome oracle for one iteration of the attempt loop in
`make_dynamic_commit`: what `select_random_code_section` returned for
the randomly chosen file, which modification type `random.choice`
picked, what `call_openai` returned (`none` for failure), and whether
`apply_code_modification`'s file write succeeded. -/
structure AttemptOutcome where
  codeSection : Option CodeSection
  modType : String
  llmResult : Option String
  applyOk : Bool
  deriving DecidableEq

/-- Instrumentation for the attempt loop: how many times the external
provider (`call_openai`) and the applier (`apply_code_modification`)
were invoked, and how many loop iterations ran. -/
structure LoopStats where
  providerCalls : Nat
  applierCalls : Nat
  attemptsUsed : Nat
  deriving DecidableEq

/-- Add per-iteration counts onto a loop result. -/
def addStats (p q t : Nat) (r : (Bool × String) × LoopStats) : (Bool × String) × LoopStats :=
  (r.1, ⟨r.2.providerCalls + p, r.2.applierCalls + q, r.2.attemptsUsed + t⟩)

/-- The `for attempt in range(5)` body of `make_dynamic_commit`,
iterated over the per-attempt oracles.  Each branch mirrors one
`continue`: no section, falsy provider result (`None` or empty),
no-op transformation (stripped equality), failed apply.  A successful
apply immediately returns the commit workflow's outcome on the message
generated from the modification type.  An exhausted list returns the
source's failure pair. -/
def attempt_loop (commit : String → Bool × String) : List AttemptOutcome → (Bool × String) × LoopStats
  | [] => ((false, "Could not generate suitable modifications after 5 attempts"), ⟨0, 0, 0⟩)
  | a :: rest =>
    match a.codeSection with
    | none => addStats 0 0 1 (attempt_loop commit rest)
    | some cs =>
      match a.llmResult with
      | none => addStats 1 0 1 (attempt_loop commit rest)
      | some improved =>
        if improved = "" then addStats 1 0 1 (attempt_loop commit rest)
        else if pyStrip improved = pyStrip (section_text cs) then addStats 1 0 1 (attempt_loop commit rest)
        else if a.applyOk then (commit (generate_commit_message a.modType), ⟨1, 1, 1⟩)
        else addStats 1 1 1 (attempt_loop commit rest)

/-- Whether one attempt reaches a successful apply (the branch that
invokes the commit workflow). -/
def attempt_ok (a : AttemptOutcome) : Bool :=
  match a.codeSection with
  | none => false
  | some cs =>
    match a.llmResult with
    | none => false
    | some improved =>
      if improved = "" then false
      else if pyStrip improved = pyStrip (section_text cs) then false
      else a.applyOk

/-- Whether one attempt invokes `apply_code_modification` at all
(section selected, non-empty provider result, not a no-op). -/
def attempt_applier_called (a : AttemptOutcome) : Bool :=
  match a.codeSection with
  | none => false
  | some cs =>
    match a.llmResult with
    | none => false
    | some improved =>
      if improved = "" then false
      else if pyStrip improved = pyStrip (section_text cs) then false
      else true

/-- The generated-artifact markers excluded by `make_dynamic_commit`
(`['fixes', 'features', 'performance', 'security']`). -/
def gen_markers : List String := ["fixes", "features", "performance", "security"]

/-- The `existing_files` narrowing of `make_dynamic_commit`: drop
files whose path contains a generated-artifact marker, keep files with
more than 200 bytes. -/
def eligible_files (code_files : List SrcFile) : List SrcFile :=
  code_files.filter (fun f =>
    !(gen_markers.any (fun p => decide (p.data <:+: f.path.data)))
    && decide (f.size > 200))

/-- Embedding of `DynamicCodeModifier.make_dynamic_commit` downstream
of Discovery: `code_files` is `find_code_files`'s result, `att i` the
oracle for attempt `i` of `range(5)`, and `commit` the
`commit_and_push` workflow applied to the generated message. -/
def make_dynamic_commit (code_files : List SrcFile) (att : Nat → AttemptOutcome) (commit : String → Bool × String) : (Bool × String) × LoopStats :=
  if code_files = [] then ((false, "No suitable code files found"), ⟨0, 0, 0⟩)
  else
    let existing_files := eligible_files code_files
    if existing_files = [] then ((false, "No existing source files found to modify"), ⟨0, 0, 0⟩)
    else attempt_loop commit ((List.range 5).map att)

/-- Result of one `subprocess.run(['git'] + command)` call: exit
success, captured stdout and stderr. -/
structure GitResult where
  ok : Bool
  stdout : String
  stderr : String
  deriving DecidableEq

/-- Embedding of `DynamicCodeModifier.run_git_command` over a git
oracle: stripped stdout on success, stripped stderr on
`CalledProcessError`. -/
def run_git_command (git : String → List String → GitResult) (repo_path : String) (command : List String) : Bool × String :=
  let r := git repo_path command
  if r.ok then (true, pyStrip r.stdout) else (false, pyStrip r.stderr)

/-- Git invocation `['add', '.']`. -/
def cmd_add : List String := ["add", "."]

/-- Git invocation `['diff', '--cached', '--name-only']`. -/
def cmd_diff : List String := ["diff", "--cached", "--name-only"]

/-- Git invocation `['commit', '-m', m]`. -/
def cmd_commit (m : String) : List String := ["commit", "-m", m]

/-- Git invocation `['push']`. -/
def cmd_push : List String := ["push"]

/-- Embedding of `DynamicCodeModifier.commit_and_push`, additionally
returning the trace of git invocations actually executed.  The four
steps run in source order: stage all, staged-name query (failure or
blank output both yield `"No changes to commit"`), commit, push. -/
def commit_and_push (git : String → List String → GitResult) (repo_path commit_message : String) : (Bool × String) × List (List String) :=
  let r1 := run_git_command git repo_path cmd_add
  if r1.1 = false then
    ((false, "Failed to stage files: " ++ r1.2), [cmd_add])
  else
    let r2 := run_git_command git repo_path cmd_diff
    if r2.1 = false ∨ pyStrip r2.2 = "" then
      ((false, "No changes to commit"), [cmd_add, cmd_diff])
    else
      let r3 := run_git_command git repo_path (cmd_commit commit_message)
      if r3.1 = false then
        ((false, "Failed to commit: " ++ r3.2), [cmd_add, cmd_diff, cmd_commit commit_message])
      else
        let r4 := run_git_command git repo_path cmd_push
        if r4.1 = false then
          ((false, "Failed to push: " ++ r4.2), [cmd_add, cmd_diff, cmd_commit commit_message, cmd_push])
        else
          ((true, commit_message), [cmd_add, cmd_diff, cmd_commit commit_message, cmd_push])

/-- Commit-workflow stub used for concrete witness evaluations. -/
def commit0 : String → Bool × String := fun m => (true, m)

/-- Attempt oracle whose every attempt finds no section. -/
def att0 : Nat → AttemptOutcome := fun _ => ⟨none, "improve_readability", none, false⟩

/-- One ordinary eligible candidate. -/
def cf0 : List SrcFile := [⟨"/repo/main.py", 300⟩]

/-- One candidate excluded by the generated-artifact marker list. -/
def cf1 : List SrcFile := [⟨"/repo/fixes/main.py", 300⟩]

/-- Discovery input with two boundary files: byte size exactly 50, and
a file literally named `.py` (whose pathlib extension is empty). -/
def cex_files : List SrcFile := [⟨"/repo/a.py", 50⟩, ⟨"/repo/.py", 100⟩]

/-- Discovery input with one well-behaved candidate. -/
def wit_files : List SrcFile := [⟨"/repo/good_file.py", 120⟩]

/-- File content with four meaningful lines. -/
def content4 : String :=
  "alpha alpha alpha aa\nbeta beta beta bb\ngamma gamma gamma gg\ndelta delta delta dd"

/-- A concrete two-line section of a four-line file. -/
def cs2 : CodeSection :=
  { file_path := "/repo/w.py"
    lines := [(1, "bbb line here yes"), (2, "ccc line here yes")]
    content := "aaa\nbbb line here yes\nccc line here yes\nddd"
    all_lines := ["aaa", "bbb line here yes", "ccc line here yes", "ddd"]
    language := "python" }

/-- A concrete one-line section used for the no-op rejection. -/
def cs6 : CodeSection :=
  { file_path := "/repo/n.py"
    lines := [(0, "keep this line as it is")]
    content := "keep this line as it is"
    all_lines := ["keep this line as it is"]
    language := "python" }

/-- An attempt whose provider output equals the selected text after
stripping, while the apply oracle would succeed. -/
def a6 : AttemptOutcome :=
  { codeSection := some cs6
    modType := "optimize_code"
    llmResult := some "  keep this line as it is  "
    applyOk := true }

/-- A concrete section for the prompt-builder witness. -/
def cs9 : CodeSection :=
  { file_path := "/repo/p.py"
    lines := [(0, "first line of code!!"), (1, "second line of code!")]
    content := "first line of code!!\nsecond line of code!"
    all_lines := ["first line of code!!", "second line of code!"]
    language := "python" }

/-- Git oracle where every command succeeds with non-blank stdout. -/
def git_all_ok : String → List String → GitResult := fun _ _ => ⟨true, "file.py", ""⟩

/-- Git oracle where the staged-name query itself fails with a
non-empty diagnostic while everything else succeeds. -/
def git_diff_fail : String → List String → GitResult := fun _ c =>
  if c = cmd_diff then ⟨false, "", "fatal: bad revision"⟩ else ⟨true, "x", ""⟩

/-- Git oracle where staging succeeds and the staged-name query
succeeds with only-whitespace output. -/
def git_no_staged : String → List String → GitResult := fun _ c =>
  if c = cmd_diff then ⟨true, "  ", "ignored diagnostic"⟩ else ⟨true, "ok", ""⟩

theorem mem_enumFrom_get? {α : Type} (l : List α) : ∀ (n : Nat) (p : Nat × α), p ∈ List.enumFrom n l → n ≤ p.1 ∧ l.get? (p.1 - n) = some p.2 := by
  induction l with
  | nil => intro n p hp; simp [List.enumFrom] at hp
  | cons a as ih =>
    intro n p hp
    rcases List.mem_cons.mp hp with rfl | hp'
    · exact ⟨Nat.le_refl n, by simp⟩
    · obtain ⟨h1, h2⟩ := ih (n + 1) p hp'
      refine ⟨by omega, ?_⟩
      have hstep : p.1 - n = (p.1 - (n + 1)) + 1 := by omega
      rw [hstep]
      simpa using h2

theorem mem_meaningful_lines (lines : List String) (p : Nat × String) (hp : p ∈ meaningful_lines lines) : p.1 < lines.length ∧ lines.get? p.1 = some p.2 := by
  have hp' : p ∈ List.enumFrom 0 lines := (List.mem_filter.mp hp).1
  obtain ⟨-, h2⟩ := mem_enumFrom_get? lines 0 p hp'
  rw [Nat.sub_zero] at h2
  obtain ⟨hlt, -⟩ := List.get?_eq_some.mp h2
  exact ⟨hlt, h2⟩

/-- C1 (amended): every file returned by `find_code_files` has a path
ending with one of the configured extension strings (the glob
`*ext` match), contains no configured ignore-pattern substring
anywhere in its full path, and has byte size in the closed interval
`[50, 50000]`. -/
theorem find_code_files_filters (extensions ignore_patterns : List String) (files : List SrcFile) :
    ∀ f ∈ find_code_files extensions ignore_patterns files,
      (∃ e ∈ extensions, e.data <:+ f.path.data)
      ∧ (∀ p ∈ ignore_patterns, ¬ (p.data <:+: f.path.data))
      ∧ 50 ≤ f.size ∧ f.size ≤ 50000 := by
  intro f hf
  rw [find_code_files, List.mem_flatMap] at hf
  obtain ⟨ext, hext, hf⟩ := hf
  rw [List.mem_filter] at hf
  obtain ⟨-, hcond⟩ := hf
  simp only [Bool.and_eq_true, Bool.not_eq_true', List.any_eq_false, decide_eq_true_eq,
    decide_eq_false_iff_not, Bool.or_eq_false_iff] at hcond
  obtain ⟨⟨⟨hsuf, hign⟩, -⟩, hlo, hhi⟩ := hcond
  exact ⟨⟨ext, hext, hsuf⟩, hign, by omega, by omega⟩

/-- C1 counterexample: a 50-byte file passes Discovery's filters even
though 50 is not strictly greater than 50, and a file literally named
`.py` is returned even though its pathlib extension is the empty
string, which is not in the allowlist.  So the claim's open size
interval (and its literal extension-membership reading) fail on the
code. -/
theorem find_code_files_claim_counterexample :
    (⟨"/repo/a.py", 50⟩ : SrcFile) ∈ find_code_files [".py"] [] cex_files
    ∧ (⟨"/repo/.py", 100⟩ : SrcFile) ∈ find_code_files [".py"] [] cex_files
    ∧ pathSuffix "/repo/.py" = ""
    ∧ ¬ (∀ f ∈ find_code_files [".py"] [] cex_files,
          (50 < f.size ∧ f.size < 50000) ∧ pathSuffix f.path ∈ ([".py"] : List String)) := by
  decide

/-- Witness for the amended C1 theorem at a concrete discovery run. -/
theorem find_code_files_filters_witness :
    (∃ e ∈ ([".py"] : List String), e.data <:+ ("/repo/good_file.py" : String).data)
    ∧ (∀ p ∈ (["node_modules"] : List String), ¬ (p.data <:+: ("/repo/good_file.py" : String).data))
    ∧ 50 ≤ (120 : Nat) ∧ (120 : Nat) ≤ 50000 :=
  find_code_files_filters [".py"] ["node_modules"] wit_files ⟨"/repo/good_file.py", 120⟩ (by decide)

/-- C2: the Mutation Applier preserves every line strictly before the
first selected original index and every line strictly after the last
selected original index, in order, for any replacement text; only the
closed index range in between is replaced. -/
theorem apply_code_modification_frame (cs : CodeSection) (improved : String)
    (hstart : (cs.lines.headD (0, "")).1 ≤ cs.all_lines.length) :
    (apply_code_modification cs improved).take (cs.lines.headD (0, "")).1
        = cs.all_lines.take (cs.lines.headD (0, "")).1
    ∧ (apply_code_modification cs improved).drop
          ((cs.lines.headD (0, "")).1 + (pySplitNl improved).length)
        = cs.all_lines.drop ((cs.lines.getLastD (0, "")).1 + 1) := by
  have happ : apply_code_modification cs improved
      = (cs.all_lines.take (cs.lines.headD (0, "")).1 ++ pySplitNl improved)
        ++ cs.all_lines.drop ((cs.lines.getLastD (0, "")).1 + 1) := rfl
  set l := cs.all_lines with hl
  set s := (cs.lines.headD (0, "")).1 with hsdef
  set e := (cs.lines.getLastD (0, "")).1 with hedef
  have h1 : s ≤ (l.take s).length := by rw [List.length_take]; omega
  have h2 : s ≤ (l.take s ++ pySplitNl improved).length := by
    rw [List.length_append, List.length_take]; omega
  constructor
  · calc ((l.take s ++ pySplitNl improved) ++ l.drop (e + 1)).take s
        = (l.take s ++ pySplitNl improved).take s := List.take_append_of_le_length h2
      _ = (l.take s).take s := List.take_append_of_le_length h1
      _ = l.take (min s s) := List.take_take s s l
      _ = l.take s := by rw [min_self]
  · have hlen : (l.take s ++ pySplitNl improved).length = s + (pySplitNl improved).length := by
      rw [List.length_append, List.length_take]; omega
    rw [happ, ← hlen, List.drop_left]

/-- Witness for C2 on a concrete two-line section and a two-line
replacement. -/
theorem apply_code_modification_frame_witness :
    (apply_code_modification cs2 "XX\nYY").take (cs2.lines.headD (0, "")).1
        = cs2.all_lines.take (cs2.lines.headD (0, "")).1
    ∧ (apply_code_modification cs2 "XX\nYY").drop
          ((cs2.lines.headD (0, "")).1 + (pySplitNl "XX\nYY").length)
        = cs2.all_lines.drop ((cs2.lines.getLastD (0, "")).1 + 1) :=
  apply_code_modification_frame cs2 "XX\nYY" (by decide)

/-- C3: the Section Selector returns nothing when fewer than 3
meaningful lines exist; with at least 3 meaningful lines and the
random draws inside their `randint` ranges it returns a section whose
selected sub-sequence is the contiguous meaningful-line slice of
length 2 or 3 starting at the drawn offset, carrying true zero-based
original line indices that lie within the file's line bounds. -/
theorem select_random_code_section_spec (file_path content : String) (section_size start_idx : Nat) :
    ((meaningful_lines (pySplitNl content)).length < 3 →
      select_random_code_section file_path content section_size start_idx = none)
    ∧ (3 ≤ (meaningful_lines (pySplitNl content)).length →
       2 ≤ section_size → section_size ≤ 3 →
       start_idx + section_size ≤ (meaningful_lines (pySplitNl content)).length →
       ∃ sec, select_random_code_section file_path content section_size start_idx = some sec
         ∧ sec.lines = ((meaningful_lines (pySplitNl content)).drop start_idx).take section_size
         ∧ sec.lines.length = section_size
         ∧ (section_size = 2 ∨ section_size = 3)
         ∧ sec.all_lines = pySplitNl content
         ∧ ∀ p ∈ sec.lines, p.1 < (pySplitNl content).length ∧ (pySplitNl content).get? p.1 = some p.2) := by
  constructor
  · intro h
    unfold select_random_code_section
    simp [h]
  · intro h3 h2le h3le hrange
    have hcond : ¬ ((meaningful_lines (pySplitNl content)).length < 3) := by omega
    refine ⟨{ file_path := file_path
              lines := ((meaningful_lines (pySplitNl content)).drop start_idx).take section_size
              content := content
              all_lines := pySplitNl content
              language := detect_language file_path }, ?_, rfl, ?_, by omega, rfl, ?_⟩
    · unfold select_random_code_section
      rw [if_neg hcond]
    · rw [List.length_take, List.length_drop]
      omega
    · intro p hp
      have hp1 : p ∈ (meaningful_lines (pySplitNl content)).drop start_idx :=
        List.take_subset _ _ hp
      have hp2 : p ∈ meaningful_lines (pySplitNl content) :=
        List.drop_subset _ _ hp1
      exact mem_meaningful_lines _ p hp2

/-- Witness for C3 on a four-meaningful-line file with draws
`section_size = 2`, `start_idx = 1`. -/
theorem select_random_code_section_spec_witness :
    ∃ sec, select_random_code_section "/repo/w.py" content4 2 1 = some sec
      ∧ sec.lines = ((meaningful_lines (pySplitNl content4)).drop 1).take 2
      ∧ sec.lines.length = 2
      ∧ ((2 : Nat) = 2 ∨ (2 : Nat) = 3)
      ∧ sec.all_lines = pySplitNl content4
      ∧ ∀ p ∈ sec.lines, p.1 < (pySplitNl content4).length ∧ (pySplitNl content4).get? p.1 = some p.2 :=
  (select_random_code_section_spec "/repo/w.py" content4 2 1).2 (by decide) (by decide) (by decide) (by decide)

theorem attempt_loop_cons_ok (commit : String → Bool × String) (a : AttemptOutcome) (rest : List AttemptOutcome) (h : attempt_ok a = true) :
    attempt_loop commit (a :: rest) = (commit (generate_commit_message a.modType), ⟨1, 1, 1⟩) := by
  rcases a with ⟨sec, mt, llm, ap⟩
  cases sec with
  | none => simp [attempt_ok] at h
  | some cs =>
    cases llm with
    | none => simp [attempt_ok] at h
    | some improved =>
      by_cases he : improved = ""
      · simp [attempt_ok, he] at h
      · by_cases heq : pyStrip improved = pyStrip (section_text cs)
        · simp [attempt_ok, he, heq] at h
        · simp only [attempt_ok, if_neg he, if_neg heq] at h
          simp [attempt_loop, he, heq, h]

theorem attempt_loop_cons_fail (commit : String → Bool × String) (a : AttemptOutcome) (rest : List AttemptOutcome) (h : attempt_ok a = false) :
    (attempt_loop commit (a :: rest)).1 = (attempt_loop commit rest).1
    ∧ (attempt_loop commit (a :: rest)).2.attemptsUsed = (attempt_loop commit rest).2.attemptsUsed + 1 := by
  rcases a with ⟨sec, mt, llm, ap⟩
  cases sec with
  | none => simp [attempt_loop, addStats]
  | some cs =>
    cases llm with
    | none => simp [attempt_loop, addStats]
    | some improved =>
      by_cases he : improved = ""
      · simp [attempt_loop, addStats, he]
      · by_cases heq : pyStrip improved = pyStrip (section_text cs)
        · simp [attempt_loop, addStats, he, heq]
        · simp only [attempt_ok, if_neg he, if_neg heq] at h
          simp [attempt_loop, addStats, he, heq, h]

theorem attempt_loop_all_fail (commit : String → Bool × String) (atts : List AttemptOutcome) (h : ∀ x ∈ atts, attempt_ok x = false) :
    (attempt_loop commit atts).1 = (false, "Could not generate suitable modifications after 5 attempts")
    ∧ (attempt_loop commit atts).2.attemptsUsed = atts.length := by
  induction atts with
  | nil => exact ⟨rfl, rfl⟩
  | cons a rest ih =>
    have ha := h a (List.mem_cons_self a rest)
    obtain ⟨h1, h2⟩ := attempt_loop_cons_fail commit a rest ha
    obtain ⟨ih1, ih2⟩ := ih (fun x hx => h x (List.mem_cons_of_mem a hx))
    refine ⟨h1.trans ih1, ?_⟩
    rw [h2, ih2, List.length_cons]

theorem attempt_loop_used_le (commit : String → Bool × String) (atts : List AttemptOutcome) :
    (attempt_loop commit atts).2.attemptsUsed ≤ atts.length := by
  induction atts with
  | nil => simp [attempt_loop]
  | cons a rest ih =>
    by_cases h : attempt_ok a = true
    · rw [attempt_loop_cons_ok commit a rest h, List.length_cons]
      show (1 : Nat) ≤ rest.length + 1
      omega
    · have h' : attempt_ok a = false := by revert h; cases attempt_ok a <;> simp
      obtain ⟨-, h2⟩ := attempt_loop_cons_fail commit a rest h'
      rw [h2, List.length_cons]
      omega

theorem attempt_loop_prefix_success (commit : String → Bool × String) (pre : List AttemptOutcome) (a : AttemptOutcome) (post : List AttemptOutcome)
    (hpre : ∀ x ∈ pre, attempt_ok x = false) (ha : attempt_ok a = true) :
    (attempt_loop commit (pre ++ a :: post)).1 = commit (generate_commit_message a.modType)
    ∧ (attempt_loop commit (pre ++ a :: post)).2.attemptsUsed = pre.length + 1 := by
  induction pre with
  | nil =>
    rw [List.nil_append, attempt_loop_cons_ok commit a post ha]
    exact ⟨rfl, rfl⟩
  | cons x pre ih =>
    have hx := hpre x (List.mem_cons_self x pre)
    obtain ⟨h1, h2⟩ := attempt_loop_cons_fail commit x (pre ++ a :: post) hx
    obtain ⟨ih1, ih2⟩ := ih (fun y hy => hpre y (List.mem_cons_of_mem x hy))
    constructor
    · rw [List.cons_append, h1]
      exact ih1
    · rw [List.cons_append, h2, ih2, List.length_cons]

/-- C4 (amended): the attempt loop of `make_dynamic_commit` runs at
most 5 attempts; the first attempt reaching a successful apply
immediately hands the message generated from its modification type to
the commit workflow and returns that workflow's outcome; when all 5
attempts fail it returns
`(false, "Could not generate suitable modifications after 5 attempts")`
(the source capitalizes the message). -/
theorem make_dynamic_commit_attempt_spec (code_files : List SrcFile) (att : Nat → AttemptOutcome) (commit : String → Bool × String)
    (h1 : code_files ≠ []) (h2 : eligible_files code_files ≠ []) :
    (make_dynamic_commit code_files att commit).2.attemptsUsed ≤ 5
    ∧ (∀ i, i < 5 → (∀ j, j < i → attempt_ok (att j) = false) → attempt_ok (att i) = true →
        (make_dynamic_commit code_files att commit).1 = commit (generate_commit_message (att i).modType)
        ∧ (make_dynamic_commit code_files att commit).2.attemptsUsed = i + 1)
    ∧ ((∀ i, i < 5 → attempt_ok (att i) = false) →
        (make_dynamic_commit code_files att commit).1
          = (false, "Could not generate suitable modifications after 5 attempts")) := by
  have hrw : make_dynamic_commit code_files att commit = attempt_loop commit ((List.range 5).map att) := by
    simp only [make_dynamic_commit, if_neg h1, if_neg h2]
  refine ⟨?_, ?_, ?_⟩
  · rw [hrw]
    have h := attempt_loop_used_le commit ((List.range 5).map att)
    simpa using h
  · intro i hi hfail hok
    rw [hrw]
    interval_cases i
    · rw [show (List.range 5).map att = [] ++ att 0 :: [att 1, att 2, att 3, att 4] from rfl]
      exact attempt_loop_prefix_success commit [] (att 0) _
        (by intro x hx; exact absurd hx (List.not_mem_nil x)) hok
    · rw [show (List.range 5).map att = [att 0] ++ att 1 :: [att 2, att 3, att 4] from rfl]
      refine attempt_loop_prefix_success commit [att 0] (att 1) _ ?_ hok
      intro x hx
      simp only [List.mem_cons, List.not_mem_nil, or_false] at hx
      subst hx
      exact hfail 0 (by omega)
    · rw [show (List.range 5).map att = [att 0, att 1] ++ att 2 :: [att 3, att 4] from rfl]
      refine attempt_loop_prefix_success commit [att 0, att 1] (att 2) _ ?_ hok
      intro x hx
      simp only [List.mem_cons, List.not_mem_nil, or_false] at hx
      rcases hx with rfl | rfl
      · exact hfail 0 (by omega)
      · exact hfail 1 (by omega)
    · rw [show (List.range 5).map att = [att 0, att 1, att 2] ++ att 3 :: [att 4] from rfl]
      refine attempt_loop_prefix_success commit [att 0, att 1, att 2] (att 3) _ ?_ hok
      intro x hx
      simp only [List.mem_cons, List.not_mem_nil, or_false] at hx
      rcases hx with rfl | rfl | rfl
      · exact hfail 0 (by omega)
      · exact hfail 1 (by omega)
      · exact hfail 2 (by omega)
    · rw [show (List.range 5).map att = [att 0, att 1, att 2, att 3] ++ att 4 :: [] from rfl]
      refine attempt_loop_prefix_success commit [att 0, att 1, att 2, att 3] (att 4) _ ?_ hok
      intro x hx
      simp only [List.mem_cons, List.not_mem_nil, or_false] at hx
      rcases hx with rfl | rfl | rfl | rfl
      · exact hfail 0 (by omega)
      · exact hfail 1 (by omega)
      · exact hfail 2 (by omega)
      · exact hfail 3 (by omega)
  · intro hall
    rw [hrw]
    refine (attempt_loop_all_fail commit _ ?_).1
    intro x hx
    rcases List.mem_map.mp hx with ⟨j, hj, rfl⟩
    exact hall j (List.mem_range.mp hj)

/-- C4 counterexample: on a run whose 5 attempts all fail, the code
returns the capitalized message
`"Could not generate suitable modifications after 5 attempts"`, not
the claim's quoted lowercase message. -/
theorem make_dynamic_commit_message_counterexample :
    (∀ i, i < 5 → attempt_ok (att0 i) = false)
    ∧ (make_dynamic_commit cf0 att0 commit0).1
        = (false, "Could not generate suitable modifications after 5 attempts")
    ∧ (make_dynamic_commit cf0 att0 commit0).1
        ≠ (false, "could not generate suitable modifications after 5 attempts") :=
  ⟨fun _ _ => rfl, by decide, by decide⟩

/-- Witness for the amended C4 theorem: a concrete all-fail run
returns the exhaustion failure pair. -/
theorem make_dynamic_commit_attempt_spec_witness :
    (make_dynamic_commit cf0 att0 commit0).1
      = (false, "Could not generate suitable modifications after 5 attempts") :=
  (make_dynamic_commit_attempt_spec cf0 att0 commit0 (by decide) (by decide)).2.2 (fun _ _ => rfl)

/-- C5 (amended): a file is eligible only if its path contains no
generated-artifact marker and its size exceeds 200 bytes; when
Discovery produced at least one candidate but the eligible subset is
empty, `make_dynamic_commit` returns
`(false, "No existing source files found to modify")` with zero
provider invocations.  (With zero candidates the earlier guard answers
`"No suitable code files found"` instead — see the counterexample.) -/
theorem make_dynamic_commit_eligibility_spec (code_files : List SrcFile) (att : Nat → AttemptOutcome) (commit : String → Bool × String) :
    (∀ f ∈ eligible_files code_files,
      (∀ p ∈ gen_markers, ¬ (p.data <:+: f.path.data)) ∧ 200 < f.size)
    ∧ (code_files ≠ [] → eligible_files code_files = [] →
        make_dynamic_commit code_files att commit
          = ((false, "No existing source files found to modify"), ⟨0, 0, 0⟩)) := by
  constructor
  · intro f hf
    rw [eligible_files, List.mem_filter] at hf
    obtain ⟨-, hcond⟩ := hf
    simp only [Bool.and_eq_true, Bool.not_eq_true', List.any_eq_false, decide_eq_true_eq,
      decide_eq_false_iff_not] at hcond
    exact ⟨hcond.1, hcond.2⟩
  · intro h1 h2
    simp [make_dynamic_commit, h1, h2]

/-- C5 counterexample: with an empty candidate list the eligible set
is empty, yet `make_dynamic_commit` answers
`"No suitable code files found"`, not the message the claim states for
every empty eligible set. -/
theorem make_dynamic_commit_empty_candidates_counterexample :
    eligible_files ([] : List SrcFile) = []
    ∧ (make_dynamic_commit [] att0 commit0).1 = (false, "No suitable code files found")
    ∧ (make_dynamic_commit [] att0 commit0).1 ≠ (false, "No existing source files found to modify") :=
  ⟨rfl, rfl, by decide⟩

/-- Witness for the amended C5 theorem: one candidate whose path
contains the marker `fixes` leaves no eligible file, and the run stops
before any provider call. -/
theorem make_dynamic_commit_eligibility_spec_witness :
    make_dynamic_commit cf1 att0 commit0
      = ((false, "No existing source files found to modify"), ⟨0, 0, 0⟩) :=
  (make_dynamic_commit_eligibility_spec cf1 att0 commit0).2 (by decide) (by decide)

/-- C6: a provider result whose stripped text equals the stripped join
of the selected lines is rejected as a no-op: the applier is not
invoked, the attempt is not a success (so no commit happens), and the
loop result is exactly the result of continuing with the remaining
attempts, using up one attempt. -/
theorem attempt_loop_noop_rejection (commit : String → Bool × String) (a : AttemptOutcome) (rest : List AttemptOutcome) (cs : CodeSection) (t : String)
    (hsec : a.codeSection = some cs) (hllm : a.llmResult = some t)
    (heq : pyStrip t = pyStrip (section_text cs)) :
    attempt_applier_called a = false
    ∧ attempt_ok a = false
    ∧ (attempt_loop commit (a :: rest)).1 = (attempt_loop commit rest).1
    ∧ (attempt_loop commit (a :: rest)).2.applierCalls = (attempt_loop commit rest).2.applierCalls
    ∧ (attempt_loop commit (a :: rest)).2.attemptsUsed = (attempt_loop commit rest).2.attemptsUsed + 1 := by
  rcases a with ⟨sec, mt, llm, ap⟩
  dsimp only at hsec hllm
  subst hsec
  subst hllm
  by_cases he : t = ""
  · refine ⟨?_, ?_, ?_, ?_, ?_⟩ <;>
      simp [attempt_applier_called, attempt_ok, attempt_loop, addStats, he]
  · refine ⟨?_, ?_, ?_, ?_, ?_⟩ <;>
      simp [attempt_applier_called, attempt_ok, attempt_loop, addStats, he, heq]

/-- Witness for C6: a concrete attempt whose provider output equals
the selected line up to stripping is skipped even though the apply
oracle would have succeeded. -/
theorem attempt_loop_noop_rejection_witness :
    attempt_applier_called a6 = false
    ∧ attempt_ok a6 = false
    ∧ (attempt_loop commit0 [a6]).1 = (attempt_loop commit0 []).1
    ∧ (attempt_loop commit0 [a6]).2.applierCalls = (attempt_loop commit0 []).2.applierCalls
    ∧ (attempt_loop commit0 [a6]).2.attemptsUsed = (attempt_loop commit0 []).2.attemptsUsed + 1 :=
  attempt_loop_noop_rejection commit0 a6 [] cs6 "  keep this line as it is  " rfl rfl (by decide)

/-- C7: when staging succeeds and the staged-name query succeeds with
output that strips to empty, `commit_and_push` returns
`(false, "No changes to commit")` and executes neither the commit nor
the push invocation (the trace stops after the two first commands). -/
theorem commit_and_push_no_staged_changes (git : String → List String → GitResult) (repo msg : String)
    (h1 : (git repo cmd_add).ok = true)
    (h2 : (git repo cmd_diff).ok = true)
    (h3 : pyStrip (pyStrip (git repo cmd_diff).stdout) = "") :
    commit_and_push git repo msg = ((false, "No changes to commit"), [cmd_add, cmd_diff]) := by
  simp [commit_and_push, run_git_command, h1, h2, h3]

/-- Witness for C7 on a git oracle whose staged-name query returns
only whitespace. -/
theorem commit_and_push_no_staged_changes_witness :
    commit_and_push git_no_staged "/repo" "refactor: improve code readability"
      = ((false, "No changes to commit"), [cmd_add, cmd_diff]) :=
  commit_and_push_no_staged_changes git_no_staged "/repo" "refactor: improve code readability"
    (by decide) (by decide) (by decide)

/-- C8: the four git steps run strictly in sequence and
short-circuit: a failing step ends the workflow with `false` and a
diagnostic message, later commands are never executed (witnessed by
the invocation trace), and full success returns `(true, m)` with `m`
exactly the given commit message. -/
theorem commit_and_push_sequential_spec (git : String → List String → GitResult) (repo msg : String) :
    ((git repo cmd_add).ok = false →
      commit_and_push git repo msg
        = ((false, "Failed to stage files: " ++ pyStrip (git repo cmd_add).stderr), [cmd_add]))
    ∧ ((git repo cmd_add).ok = true →
       ((git repo cmd_diff).ok = false ∨ pyStrip (pyStrip (git repo cmd_diff).stdout) = "") →
      commit_and_push git repo msg = ((false, "No changes to commit"), [cmd_add, cmd_diff]))
    ∧ ((git repo cmd_add).ok = true → (git repo cmd_diff).ok = true →
       pyStrip (pyStrip (git repo cmd_diff).stdout) ≠ "" → (git repo (cmd_commit msg)).ok = false →
      commit_and_push git repo msg
        = ((false, "Failed to commit: " ++ pyStrip (git repo (cmd_commit msg)).stderr),
           [cmd_add, cmd_diff, cmd_commit msg]))
    ∧ ((git repo cmd_add).ok = true → (git repo cmd_diff).ok = true →
       pyStrip (pyStrip (git repo cmd_diff).stdout) ≠ "" → (git repo (cmd_commit msg)).ok = true →
       (git repo cmd_push).ok = false →
      commit_and_push git repo msg
        = ((false, "Failed to push: " ++ pyStrip (git repo cmd_push).stderr),
           [cmd_add, cmd_diff, cmd_commit msg, cmd_push]))
    ∧ ((git repo cmd_add).ok = true → (git repo cmd_diff).ok = true →
       pyStrip (pyStrip (git repo cmd_diff).stdout) ≠ "" → (git repo (cmd_commit msg)).ok = true →
       (git repo cmd_push).ok = true →
      commit_and_push git repo msg
        = ((true, msg), [cmd_add, cmd_diff, cmd_commit msg, cmd_push])) := by
  refine ⟨?_, ?_, ?_, ?_, ?_⟩
  · intro h1
    simp [commit_and_push, run_git_command, h1]
  · intro h1 h2
    cases hok : (git repo cmd_diff).ok
    · simp [commit_and_push, run_git_command, h1, hok]
    · rcases h2 with h2 | h2
      · rw [hok] at h2
        cases h2
      · simp [commit_and_push, run_git_command, h1, hok, h2]
  · intro h1 h2 h3 h4
    simp [commit_and_push, run_git_command, h1, h2, h3, h4]
  · intro h1 h2 h3 h4 h5
    simp [commit_and_push, run_git_command, h1, h2, h3, h4, h5]
  · intro h1 h2 h3 h4 h5
    simp [commit_and_push, run_git_command, h1, h2, h3, h4, h5]

/-- Witness for C8 on an all-success git oracle with the spec's
scenario message. -/
theorem commit_and_push_sequential_spec_witness :
    commit_and_push git_all_ok "/repo" "refactor: improve code readability"
      = ((true, "refactor: improve code readability"),
         [cmd_add, cmd_diff, cmd_commit "refactor: improve code readability", cmd_push]) :=
  (commit_and_push_sequential_spec git_all_ok "/repo" "refactor: improve code readability").2.2.2.2
    (by decide) (by decide) (by decide) (by decide) (by decide)

/-- C10: `(false, "No changes to commit")` is returned both when the
staged-name list is blank and when the staged-name query command
itself fails; in the failure case the conclusion mentions the query's
stderr nowhere — the diagnostic is discarded — whereas the stage,
commit, and push steps each embed their own stripped stderr in their
failure message. -/
theorem commit_and_push_diff_failure_spec (git : String → List String → GitResult) (repo msg : String) :
    ((git repo cmd_add).ok = true → (git repo cmd_diff).ok = false →
      commit_and_push git repo msg = ((false, "No changes to commit"), [cmd_add, cmd_diff]))
    ∧ ((git repo cmd_add).ok = true → (git repo cmd_diff).ok = true →
       pyStrip (pyStrip (git repo cmd_diff).stdout) = "" →
      commit_and_push git repo msg = ((false, "No changes to commit"), [cmd_add, cmd_diff]))
    ∧ ((git repo cmd_add).ok = false →
      (commit_and_push git repo msg).1.2
        = "Failed to stage files: " ++ pyStrip (git repo cmd_add).stderr)
    ∧ ((git repo cmd_add).ok = true → (git repo cmd_diff).ok = true →
       pyStrip (pyStrip (git repo cmd_diff).stdout) ≠ "" → (git repo (cmd_commit msg)).ok = false →
      (commit_and_push git repo msg).1.2
        = "Failed to commit: " ++ pyStrip (git repo (cmd_commit msg)).stderr)
    ∧ ((git repo cmd_add).ok = true → (git repo cmd_diff).ok = true →
       pyStrip (pyStrip (git repo cmd_diff).stdout) ≠ "" → (git repo (cmd_commit msg)).ok = true →
       (git repo cmd_push).ok = false →
      (commit_and_push git repo msg).1.2
        = "Failed to push: " ++ pyStrip (git repo cmd_push).stderr) := by
  refine ⟨?_, ?_, ?_, ?_, ?_⟩
  · intro h1 h2
    simp [commit_and_push, run_git_command, h1, h2]
  · intro h1 h2 h3
    simp [commit_and_push, run_git_command, h1, h2, h3]
  · intro h1
    simp [commit_and_push, run_git_command, h1]
  · intro h1 h2 h3 h4
    simp [commit_and_push, run_git_command, h1, h2, h3, h4]
  · intro h1 h2 h3 h4 h5
    simp [commit_and_push, run_git_command, h1, h2, h3, h4, h5]

/-- Witness for C10: a failing staged-name query with a non-empty
stderr still yields exactly `(false, "No changes to commit")`. -/
theorem commit_and_push_diff_failure_spec_witness :
    commit_and_push git_diff_fail "/repo" "chore: improve code quality"
      = ((false, "No changes to commit"), [cmd_add, cmd_diff]) :=
  (commit_and_push_diff_failure_spec git_diff_fail "/repo" "chore: improve code quality").1
    (by decide) (by decide)

/-- C9: the Prompt Builder joins the selected lines' text in original
order with newlines into the code block, and any modification type
outside the four mapped templates — in particular
`add_documentation`, `add_type_safety`, `refactor_logic` — renders
the `improve_readability` template with the section's language tag
and that code block.  (As a plain Lean function of the section and
the type tag it is pure by construction.) -/
theorem get_improvement_prompt_fallback_spec (cs : CodeSection) (t : String) :
    (t ∉ (["improve_performance", "add_error_handling", "improve_readability", "optimize_code"] : List String) →
      get_improvement_prompt cs t
        = "Make this " ++ cs.language
          ++ " code more readable and clean. Only return the improved code, no explanations:\n\n"
          ++ String.intercalate "\n" (cs.lines.map Prod.snd))
    ∧ ∀ u ∈ (["add_documentation", "add_type_safety", "refactor_logic"] : List String),
        get_improvement_prompt cs u
          = "Make this " ++ cs.language
            ++ " code more readable and clean. Only return the improved code, no explanations:\n\n"
            ++ String.intercalate "\n" (cs.lines.map Prod.snd) := by
  constructor
  · intro ht
    simp only [List.mem_cons, List.not_mem_nil, or_false, not_or] at ht
    obtain ⟨n1, n2, n3, n4⟩ := ht
    simp [get_improvement_prompt, section_text, n1, n2, n3, n4, String.append_assoc]
  · intro u hu
    simp only [List.mem_cons, List.not_mem_nil, or_false] at hu
    rcases hu with rfl | rfl | rfl <;>
      simp [get_improvement_prompt, section_text, String.append_assoc]

/-- Witness for C9 at `add_documentation`, one of the unmapped
types the claim names. -/
theorem get_improvement_prompt_fallback_spec_witness :
    get_improvement_prompt cs9 "add_documentation"
      = "Make this " ++ cs9.language
        ++ " code more readable and clean. Only return the improved code, no explanations:\n\n"
        ++ String.intercalate "\n" (cs9.lines.map Prod.snd) :=
  (get_improvement_prompt_fallback_spec cs9 "add_documentation").1 (by decide)
